import Mathlib

/-!
Verification of the 1C.ai MCP adapter core (repository `MCP_1copilot`):
the session store, the SSE stream reconstructor, configuration loading and
remote-error propagation, shallowly embedded from
`MCP_1copilot/api_client.py`, `MCP_1copilot/config.py` and
`MCP_1copilot/mcp_server.py`.

Timestamps (`datetime.now()` values) are modelled as integer seconds.
The session registry `self.sessions : Dict[str, ConversationSession]` is
modelled as an association list kept in dict insertion order (Python dicts
preserve insertion order and have unique keys).  Remote HTTP behaviour is an
oracle parameter: each embedded operation takes the outcome the network would
have produced (a status code plus payload, or a transport error).
-/

namespace OneC

/-- Modelled from the spec: `models.py` is imported by `api_client.py` but is
not among the sources.  Spec §3 gives the Session record: a `created_at`
timestamp set at creation and a `last_used_at` timestamp updated on every use
(`ConversationSession(conversation_id=...)` sets both to now; `update_usage`
sets `last_used` to now).  The conversation id is kept as the registry key. -/
structure ConversationSession where
  created_at : Int
  last_used : Int
  deriving DecidableEq, Repr

/-- The in-memory session registry `self.sessions` of `OneCApiClient`. -/
abbrev Store := List (String × ConversationSession)

/-- The application configuration (`config.py`, class `Config`): field names
and defaults are taken directly from the pydantic `Field` declarations. -/
structure Config where
  onec_ai_token : String
  base_url : String
  timeout : Int
  ui_language : String
  programming_language : String
  script_language : String
  max_active_sessions : Int
  session_ttl : Int
  deriving DecidableEq, Repr

/-- The raw environment input consumed by pydantic `BaseSettings`: each field
is either supplied by the environment or absent. -/
structure RawSettings where
  onec_ai_token : Option String
  base_url : Option String
  timeout : Option Int
  ui_language : Option String
  programming_language : Option String
  script_language : Option String
  max_active_sessions : Option Int
  session_ttl : Option Int
  deriving DecidableEq, Repr

/-- `get_config` / `Config()` (config.py lines 13-73): pydantic validation of
the settings model.  Only `onec_ai_token` is required (declared with `...`);
every other field has a default and carries no constraint (no `gt`, no
validator), so any integer — including zero or a negative value — is accepted
for `max_active_sessions` and `session_ttl` exactly as given. -/
def get_config (r : RawSettings) : Except String Config :=
  match r.onec_ai_token with
  | none => .error "1 validation error for Config: onec_ai_token field required"
  | some tok => .ok {
      onec_ai_token := tok
      base_url := r.base_url.getD "https://code.1c.ai"
      timeout := r.timeout.getD 30
      ui_language := r.ui_language.getD "russian"
      programming_language := r.programming_language.getD ""
      script_language := r.script_language.getD ""
      max_active_sessions := r.max_active_sessions.getD 10
      session_ttl := r.session_ttl.getD 3600 }

/-- Modelled from the spec: `models.py` is missing; spec §4.2 gives the decoded
event object shape — a `role` field, an optional `content` object that may
contain a `"text"` key, and a `finished` boolean flag.  `content` is an
association list of string keys to string values (a Python dict). -/
structure MessageChunk where
  role : String
  content : Option (List (String × String))
  finished : Bool
  deriving DecidableEq, Repr

/-- One line of the SSE response, after the prefix test and JSON decode that
`_parse_sse_response` performs on it: `other` is a line that does not start
with the `"data: "` prefix (skipped by the `startswith` test); `bad` is a
`"data: "` line whose JSON decode or `MessageChunk(**data)` validation raises
(skipped by the `except` clauses); `data` is a successfully decoded event. -/
inductive SSELine where
  | other : SSELine
  | bad : SSELine
  | data : MessageChunk → SSELine
  deriving DecidableEq, Repr

/-- `text.encode('utf-8', errors='ignore').decode('utf-8', errors='ignore')`
(api_client.py line 152).  A Lean `String` is a sequence of Unicode scalar
values, each of which round-trips through UTF-8, so on the representable
domain the ignore-errors re-encoding discards nothing and is the identity. -/
def normalize_utf8 (s : String) : String := s

/-- The condition `chunk.content and "text" in chunk.content` (api_client.py
lines 146-147): the dict is truthy (present and non-empty) and contains the
key `"text"`. -/
def contentHasText (content : Option (List (String × String))) : Bool :=
  match content with
  | none => false
  | some c => !c.isEmpty && (c.lookup "text").isSome

/-- One iteration body of `_parse_sse_response` on a decoded chunk
(api_client.py lines 144-157): returns the new accumulator and whether the
loop breaks.  Note the `if chunk.finished: break` sits inside the
`role == "assistant" and content and "text" in content` branch. -/
def applyChunk (chunk : MessageChunk) (full_text : String) : String × Bool :=
  if chunk.role == "assistant" && contentHasText chunk.content then
    let text := ((chunk.content.getD []).lookup "text").getD ""
    let full' := if text != "" then normalize_utf8 text else full_text
    (full', chunk.finished)
  else
    (full_text, false)

/-- The `async for line in response.aiter_lines()` loop of
`_parse_sse_response` (api_client.py lines 136-163): consumes lines until the
break fires or the sequence ends; returns the final accumulator and the lines
left unconsumed (empty when the whole sequence was read). -/
def sseLoop : List SSELine → String → String × List SSELine
  | [], full_text => (full_text, [])
  | .other :: rest, full_text => sseLoop rest full_text
  | .bad :: rest, full_text => sseLoop rest full_text
  | .data c :: rest, full_text =>
    let r := applyChunk c full_text
    if r.2 then (r.1, rest) else sseLoop rest r.1

/-- Python `str.strip()` with no argument: drop leading and trailing
whitespace characters (modelled with `Char.isWhitespace`, covering the ASCII
whitespace the streams at hand contain). -/
def pyStrip (s : String) : String :=
  ⟨((s.data.dropWhile Char.isWhitespace).reverse.dropWhile
      Char.isWhitespace).reverse⟩

/-- `_parse_sse_response` (api_client.py lines 129-165): run the loop with an
empty accumulator and return `full_text.strip()`. -/
def parse_sse_response (lines : List SSELine) : String :=
  pyStrip (sseLoop lines "").1

/-- Whether a line makes the loop break: a decoded chunk taking the assistant
branch with `finished` set. -/
def lineStops : SSELine → Bool
  | .data c => (c.role == "assistant" && contentHasText c.content) && c.finished
  | _ => false

/-- Modelled from the spec: `ApiError` lives in the missing `models.py`; spec
§7 RemoteError carries a user-visible message plus the status where available,
and `mcp_server.py` reads `e.message`.  `str(e)` is the message. -/
structure ApiError where
  message : String
  status_code : Option Int
  deriving DecidableEq, Repr

/-- The outcome the network produces for the `POST .../conversations/` call of
`create_conversation`: either a transport failure (`httpx.RequestError` with
its text) or a response with a status code and, when parsed, the uuid. -/
inductive CreateOutcome where
  | netError : String → CreateOutcome
  | response : Int → String → CreateOutcome
  deriving DecidableEq, Repr

/-- `create_conversation` (api_client.py lines 47-86), state-passing over the
session registry.  On status 200 the uuid is stored:
`self.sessions[cid] = ConversationSession(conversation_id=cid)` (a dict
assignment: replace in place when the key exists, append otherwise).  On a
non-200 status the function raises `ApiError(message, status)` — which its own
trailing `except Exception` clause catches and re-raises as
`ApiError(f"Неожиданная ошибка при создании дискуссии: {str(e)}")`, with no
status code.  A transport error is caught by `except httpx.RequestError`. -/
def create_conversation (now : Int) (outcome : CreateOutcome) (store : Store) :
    Except ApiError String × Store :=
  match outcome with
  | .netError m =>
    (.error ⟨"Ошибка сети при создании дискуссии: " ++ m, none⟩, store)
  | .response status uuid =>
    if status == 200 then
      if (store.lookup uuid).isSome then
        (.ok uuid,
         store.map fun p => if p.1 == uuid then (p.1, ⟨now, now⟩) else p)
      else
        (.ok uuid, store ++ [(uuid, ⟨now, now⟩)])
    else
      (.error ⟨"Неожиданная ошибка при создании дискуссии: " ++
               ("Ошибка создания дискуссии: " ++ toString status), none⟩,
       store)

/-- The session-registration/update performed at the top of `send_message`
(api_client.py lines 91-98): insert a fresh `ConversationSession` when the id
is absent (dict append), then `update_usage()` sets `last_used` to now. -/
def touchSession (now : Int) (conversation_id : String) (store : Store) :
    Store :=
  if (store.lookup conversation_id).isSome then
    store.map fun p =>
      if p.1 == conversation_id then (p.1, { p.2 with last_used := now }) else p
  else
    store ++ [(conversation_id, ⟨now, now⟩)]

/-- The outcome the network produces for the streaming POST of
`send_message`: a transport failure or a status code with the SSE lines the
stream would deliver. -/
inductive SendOutcome where
  | netError : String → SendOutcome
  | response : Int → List SSELine → SendOutcome
  deriving DecidableEq, Repr

/-- Whether the remote call failed (non-200 status or transport error). -/
def SendOutcome.isFailure : SendOutcome → Bool
  | .netError _ => true
  | .response status _ => status != 200

/-- `send_message` (api_client.py lines 88-127): the store is touched first
(lines 91-98), only then is the HTTP call issued; nothing rolls the touch
back.  On a non-200 status, the internally raised `ApiError(message, status)`
is caught by the function's own `except Exception` clause and re-raised
wrapped, without the status code; a transport error is caught by
`except httpx.RequestError`.  On 200 the SSE stream is parsed. -/
def send_message (now : Int) (conversation_id : String) (message : String)
    (outcome : SendOutcome) (store : Store) : Except ApiError String × Store :=
  let store' := touchSession now conversation_id store
  match outcome with
  | .netError m =>
    (.error ⟨"Ошибка сети при отправке сообщения: " ++ m, none⟩, store')
  | .response status lines =>
    if status == 200 then
      (.ok (parse_sse_response lines), store')
    else
      (.error ⟨"Неожиданная ошибка при отправке сообщения: " ++
               ("Ошибка отправки сообщения: " ++ toString status), none⟩,
       store')

/-- `_cleanup_old_sessions` (api_client.py lines 199-211): delete every
session with `current_time - session.last_used > ttl_delta`; equivalently,
keep exactly those whose age does not exceed the TTL. -/
def cleanup_old_sessions (cfg : Config) (now : Int) (store : Store) : Store :=
  store.filter fun p => !decide (now - p.2.last_used > cfg.session_ttl)

/-- `min(self.sessions.keys(), key=lambda k: self.sessions[k].last_used)`
(api_client.py lines 184-187): Python `min` keeps the first minimum in
iteration order, so ties go to the earliest-inserted key. -/
def argminSession : Store → Option (String × ConversationSession)
  | [] => none
  | p :: rest =>
    match argminSession rest with
    | none => some p
    | some q => if q.2.last_used < p.2.last_used then some q else some p

/-- `max(self.sessions.keys(), key=lambda k: self.sessions[k].last_used)`
(api_client.py lines 192-195): Python `max` keeps the first maximum in
iteration order. -/
def argmaxSession : Store → Option (String × ConversationSession)
  | [] => none
  | p :: rest =>
    match argmaxSession rest with
    | none => some p
    | some q => if q.2.last_used > p.2.last_used then some q else some p

/-- `del self.sessions[oldest_session_id]` after the `min` scan
(api_client.py lines 183-189). -/
def evictOldest (store : Store) : Store :=
  match argminSession store with
  | none => store
  | some m => store.eraseP fun p => p.1 == m.1

/-- How `get_or_create_session` can fail: an `ApiError` propagating out of
`create_conversation`, or the `ValueError` Python's `max()` raises on an
empty sequence (reachable when the eviction empties the registry). -/
inductive AcquireError where
  | api : ApiError → AcquireError
  | valueError : AcquireError
  deriving DecidableEq, Repr

/-- `get_or_create_session` (api_client.py lines 167-197): sweep expired
sessions; if `create_new` or the registry is empty, create a conversation (one
remote call); else evict the oldest session when the population is at or above
`max_active_sessions`, then return the most recently used id.  The third
component counts remote calls issued (1 exactly when the create path runs). -/
def get_or_create_session (cfg : Config) (now : Int) (outcome : CreateOutcome)
    (create_new : Bool) (store : Store) :
    Except AcquireError String × Store × Nat :=
  let s1 := cleanup_old_sessions cfg now store
  if create_new || s1.isEmpty then
    match create_conversation now outcome s1 with
    | (.ok conversation_id, s2) => (.ok conversation_id, s2, 1)
    | (.error e, s2) => (.error (.api e), s2, 1)
  else
    let s2 := if (s1.length : Int) ≥ cfg.max_active_sessions
              then evictOldest s1 else s1
    match argmaxSession s2 with
    | some m => (.ok m.1, s2, 0)
    | none => (.error .valueError, s2, 0)

/-- What a tool invocation produces (`mcp_server.py`): an early rejection text,
an answer (carried here as the raw answer plus the session id used, before the
cosmetic Unicode sanitization and message templating of the presentation
layer), an `ApiError` caught by `handle_call_tool`, or any other exception
caught by its final `except Exception` clause. -/
inductive ToolResult where
  | rejected : String → ToolResult
  | answered : String → String → ToolResult
  | apiFailure : ApiError → ToolResult
  | internalFailure : ToolResult
  deriving DecidableEq, Repr

/-- The session-acquire-then-send pipeline shared by the three handlers
(mcp_server.py lines 198-205, 231-233, 264-266), with the remote-call count in
the third component. -/
def askPipeline (cfg : Config) (now : Int) (createOut : CreateOutcome)
    (sendOut : SendOutcome) (question : String) (create_new : Bool)
    (store : Store) : ToolResult × Store × Nat :=
  match get_or_create_session cfg now createOut create_new store with
  | (.error (.api e), s', n) => (.apiFailure e, s', n)
  | (.error .valueError, s', n) => (.internalFailure, s', n)
  | (.ok conversation_id, s', n) =>
    match send_message now conversation_id question sendOut s' with
    | (.ok answer, s'') => (.answered answer conversation_id, s'', n + 1)
    | (.error e, s'') => (.apiFailure e, s'', n + 1)

/-- `_handle_ask_1c_ai` (mcp_server.py lines 186-213): a blank (whitespace-only)
question — `not question.strip()` — is rejected before any session or remote
work; otherwise acquire a session and send the question. -/
def handle_ask_1c_ai (cfg : Config) (now : Int) (createOut : CreateOutcome)
    (sendOut : SendOutcome) (question programming_language : String)
    (create_new_session : Bool) (store : Store) : ToolResult × Store × Nat :=
  if pyStrip question == "" then
    (.rejected "Ошибка: Вопрос не может быть пустым", store, 0)
  else
    askPipeline cfg now createOut sendOut question create_new_session store

/-- `_handle_explain_syntax_element` (mcp_server.py lines 215-241): a blank element is
rejected before any session or remote work; otherwise the question is built
from the element (and the context when non-empty) and sent on a session
acquired with the default `create_new=False`. -/
def handle_explain_syntax_element (cfg : Config) (now : Int) (createOut : CreateOutcome)
    (sendOut : SendOutcome) (element context : String) (store : Store) :
    ToolResult × Store × Nat :=
  if pyStrip element == "" then
    (.rejected "Ошибка: Элемент синтаксиса не может быть пустым", store, 0)
  else
    let question := "Объясни синтаксис и использование: " ++ element ++
      (if context != "" then " в контексте: " ++ context else "")
    askPipeline cfg now createOut sendOut question false store

/-- `check_descriptions.get(check_type, "ошибки")` (mcp_server.py
lines 255-261). -/
def checkDescription (check_type : String) : String :=
  if check_type == "syntax" then "синтаксические ошибки"
  else if check_type == "logic" then "логические ошибки и потенциальные проблемы"
  else if check_type == "performance" then "проблемы производительности и оптимизации"
  else "ошибки"

/-- `_handle_check_code` (mcp_server.py lines 243-274): blank code is rejected
before any session or remote work; otherwise the review question is built and
sent on a session acquired with the default `create_new=False`. -/
def handle_check_code (cfg : Config) (now : Int) (createOut : CreateOutcome)
    (sendOut : SendOutcome) (code check_type : String) (store : Store) :
    ToolResult × Store × Nat :=
  if pyStrip code == "" then
    (.rejected "Ошибка: Код для проверки не может быть пустым", store, 0)
  else
    let question := "Проверь этот код 1С на " ++ checkDescription check_type ++
      " и дай рекомендации:\n\n```1c\n" ++ code ++ "\n```"
    askPipeline cfg now createOut sendOut question false store

/-! ## Helper lemmas on the stream reconstructor -/

/-- The break flag computed by one loop body equals `lineStops` of the line,
independently of the accumulator. -/
theorem applyChunk_snd (c : MessageChunk) (full_text : String) :
    (applyChunk c full_text).2 = lineStops (.data c) := by
  by_cases h : (c.role == "assistant" && contentHasText c.content) = true <;>
    simp [applyChunk, lineStops, h]

/-- Consuming a block of lines none of which fires the break just threads the
accumulator through to the rest of the sequence. -/
theorem sseLoop_append_of_noStop (pre : List SSELine) :
    ∀ (tl : List SSELine) (full_text : String),
    (∀ l ∈ pre, lineStops l = false) →
    sseLoop (pre ++ tl) full_text = sseLoop tl (sseLoop pre full_text).1 := by
  induction pre with
  | nil => intro tl ft _; simp [sseLoop]
  | cons hd rest ih =>
    intro tl ft h
    have h' : ∀ l ∈ rest, lineStops l = false := fun l hl => h l (by simp [hl])
    cases hd with
    | other => simpa [sseLoop] using ih tl ft h'
    | bad => simpa [sseLoop] using ih tl ft h'
    | data c =>
      have hsnd : (applyChunk c ft).2 = false := by
        rw [applyChunk_snd]; exact h _ (by simp)
      calc sseLoop (SSELine.data c :: rest ++ tl) ft
          = sseLoop (rest ++ tl) (applyChunk c ft).1 := by
            simp [sseLoop, hsnd]
        _ = sseLoop tl (sseLoop rest (applyChunk c ft).1).1 := ih tl _ h'
        _ = sseLoop tl (sseLoop (SSELine.data c :: rest) ft).1 := by
            simp [sseLoop, hsnd]

/-- A lookup hitting a key shows the association list is non-empty. -/
theorem isEmpty_false_of_lookup {α : Type} [BEq String]
    (cl : List (String × α)) (k : String) (v : α)
    (h : cl.lookup k = some v) : cl.isEmpty = false := by
  cases cl with
  | nil => simp [List.lookup] at h
  | cons a l => rfl

/-! ## Stream reconstructor claims -/

/-- Claim C3: a decoded assistant line whose content carries a non-empty `"text"`
value replaces the accumulator wholesale — the step's result does not depend
on the previous accumulator, which is discarded, never appended to; and on the
two concrete snapshot lines `"Hel"` then `"Hello"` the parser returns
`"Hello"`, not `"HelHello"`. -/
theorem snapshot_replacement
    (full_text : String) (c : MessageChunk) (cl : List (String × String))
    (t : String) (rest : List SSELine)
    (hrole : c.role = "assistant") (hcontent : c.content = some cl)
    (htext : cl.lookup "text" = some t) (hne : t ≠ "") :
    sseLoop (.data c :: rest) full_text =
      (if c.finished then (t, rest) else sseLoop rest t) ∧
    parse_sse_response
      [.data ⟨"assistant", some [("text", "Hel")], false⟩,
       .data ⟨"assistant", some [("text", "Hello")], true⟩] = "Hello" := by
  constructor
  · have hcl := isEmpty_false_of_lookup cl "text" t htext
    have hbeq : (c.role == "assistant") = true := by simp [hrole]
    simp [sseLoop, applyChunk, contentHasText, hcontent, htext, hcl, hbeq,
      normalize_utf8, hne]
  · decide

/-- Witness for C3: the `"Hello"` snapshot line replaces the previously
accumulated `"Hel"` rather than being appended to it. -/
theorem snapshot_replacement_witness :
    sseLoop [.data ⟨"assistant", some [("text", "Hello")], true⟩] "Hel" =
      ("Hello", []) := by
  simpa using (snapshot_replacement "Hel"
    ⟨"assistant", some [("text", "Hello")], true⟩
    [("text", "Hello")] "Hello" [] rfl rfl rfl (by decide)).1

/-- Claim C2 counterexample: the first line is a qualifying decoded event (it starts
with the data prefix and decodes to an event object) carrying
`finished == true`, yet — because its role is not `"assistant"` — the loop's
nested break is never reached: the second line is still read (the final
accumulator is `"Y"`, taken from it, and the unconsumed remainder is empty,
not the suffix the claim demands). -/
theorem finished_on_nonassistant_line_not_stopped :
    parse_sse_response
      [.data ⟨"user", some [("text", "x")], true⟩,
       .data ⟨"assistant", some [("text", "Y")], true⟩] = "Y" ∧
    (sseLoop [.data ⟨"user", some [("text", "x")], true⟩,
              .data ⟨"assistant", some [("text", "Y")], true⟩] "").2 ≠
      [.data ⟨"assistant", some [("text", "Y")], true⟩] :=
  ⟨by decide, by decide⟩

/-- Claim C2 (amended): consumption stops immediately — leaving the remaining
sequence unread — at a decoded line carrying `finished == true` only when that
line also satisfies the assistant branch (`role == "assistant"`, a truthy
content object containing the key `"text"`); the `finished` flag of any other
line is ignored. -/
theorem finished_assistant_line_stops
    (pre rest : List SSELine) (c : MessageChunk) (full_text : String)
    (hpre : ∀ l ∈ pre, lineStops l = false)
    (hstop : lineStops (.data c) = true) :
    (sseLoop (pre ++ .data c :: rest) full_text).2 = rest := by
  rw [sseLoop_append_of_noStop pre _ _ hpre]
  have hsnd : (applyChunk c (sseLoop pre full_text).1).2 = true := by
    rw [applyChunk_snd]; exact hstop
  simp [sseLoop, hsnd]

/-- Witness for C2 (amended): after a non-stopping decoded line, a finished
assistant line halts consumption with the trailing line left unread. -/
theorem finished_assistant_line_stops_witness :
    (sseLoop [.data ⟨"user", some [("text", "x")], true⟩,
              .data ⟨"assistant", some [("text", "Y")], true⟩,
              .other] "").2 = [.other] :=
  finished_assistant_line_stops
    [.data ⟨"user", some [("text", "x")], true⟩] [.other]
    ⟨"assistant", some [("text", "Y")], true⟩ ""
    (by decide) (by decide)

/-- Claim C10: a decoded assistant line whose content maps `"text"` to the empty
string leaves the accumulator unchanged; if that same line carries
`finished == true` consumption still stops there (remainder unread), and the
overall result is the previously accumulated snapshot, trimmed of leading and
trailing whitespace. -/
theorem empty_text_keeps_snapshot
    (full_text : String) (c : MessageChunk) (cl : List (String × String))
    (rest : List SSELine)
    (hrole : c.role = "assistant") (hcontent : c.content = some cl)
    (htext : cl.lookup "text" = some "") :
    (c.finished = true → sseLoop (.data c :: rest) full_text =
      (full_text, rest)) ∧
    (c.finished = false → sseLoop (.data c :: rest) full_text =
      sseLoop rest full_text) ∧
    (c.finished = true → ∀ pre, (∀ l ∈ pre, lineStops l = false) →
      parse_sse_response (pre ++ .data c :: rest) =
        pyStrip (sseLoop pre "").1) := by
  have hcl := isEmpty_false_of_lookup cl "text" "" htext
  have hbeq : (c.role == "assistant") = true := by simp [hrole]
  have hstep : ∀ ft : String, sseLoop (.data c :: rest) ft =
      (if c.finished then (ft, rest) else sseLoop rest ft) := by
    intro ft
    simp [sseLoop, applyChunk, contentHasText, hcontent, htext, hcl, hbeq]
  refine ⟨fun hf => by simp [hstep, hf], fun hf => by simp [hstep, hf],
    fun hf pre hpre => ?_⟩
  rw [parse_sse_response, sseLoop_append_of_noStop pre _ _ hpre,
    hstep, hf, if_pos rfl]

/-- Witness for C10: a finished assistant line with empty `"text"` preceded by
a snapshot line: the earlier snapshot survives (trimmed) and the trailing line
is unread. -/
theorem empty_text_keeps_snapshot_witness :
    sseLoop [.data ⟨"assistant", some [("text", "")], true⟩, .other] " hi " =
      (" hi ", [.other]) ∧
    parse_sse_response
      [.data ⟨"assistant", some [("text", " hi ")], false⟩,
       .data ⟨"assistant", some [("text", "")], true⟩, .other] = "hi" := by
  have h := empty_text_keeps_snapshot " hi "
    ⟨"assistant", some [("text", "")], true⟩ [("text", "")] [.other]
    rfl rfl rfl
  refine ⟨h.1 rfl, ?_⟩
  have h2 := h.2.2 rfl [.data ⟨"assistant", some [("text", " hi ")], false⟩]
    (by decide)
  rw [List.cons_append, List.nil_append] at h2
  rw [h2]
  decide

/-! ## Helper lemmas on the session store -/

/-- A successful lookup in the registry updated by `touchSession` for the
touched id: the entry is present with its `last_used` set to now. -/
theorem lookup_map_update (now : Int) (id : String) :
    ∀ (store : Store), (store.lookup id).isSome = true →
    ∃ s, ((store.map fun p =>
        if p.1 == id then (p.1, { p.2 with last_used := now }) else p).lookup
          id) = some s ∧ s.last_used = now := by
  intro store
  induction store with
  | nil => intro h; simp [List.lookup] at h
  | cons hd tl ih =>
    intro h
    by_cases hk : (hd.1 == id) = true
    · have hid : (id == hd.1) = true := by
        have h1 := beq_iff_eq.mp hk
        simp [h1]
      refine ⟨{ hd.2 with last_used := now }, ?_, rfl⟩
      simp only [List.map_cons]
      rw [if_pos hk]
      simp [List.lookup, hid]
    · have hne : ¬(hd.1 = id) := fun hc => hk (beq_iff_eq.mpr hc)
      have hid : (id == hd.1) = false :=
        beq_eq_false_iff_ne.mpr fun hc => hne hc.symm
      have h' : (tl.lookup id).isSome = true := by
        simpa [List.lookup, hid] using h
      obtain ⟨s, hs, hlast⟩ := ih h'
      refine ⟨s, ?_, hlast⟩
      simp only [List.map_cons]
      rw [if_neg hk]
      simpa [List.lookup, hid] using hs

/-- A lookup miss is preserved over the head of the list being skipped:
looking the id up in the extended registry finds the appended entry. -/
theorem lookup_append_of_none (id : String) (x : String × ConversationSession) :
    ∀ (store : Store), store.lookup id = none →
    (store ++ [x]).lookup id = List.lookup id [x] := by
  intro store
  induction store with
  | nil => intro _; rfl
  | cons hd tl ih =>
    intro h
    by_cases hid : (id == hd.1) = true
    · simp [List.lookup, hid] at h
    · have h' : tl.lookup id = none := by simpa [List.lookup, hid] using h
      simpa [List.lookup, hid] using ih h'

/-- The entry touched by `touchSession` is present afterwards with
`last_used = now`, whether it existed before (update) or not (insert). -/
theorem lookup_touchSession (now : Int) (id : String) (store : Store) :
    ∃ s, (touchSession now id store).lookup id = some s ∧
      s.last_used = now := by
  unfold touchSession
  by_cases h : (store.lookup id).isSome = true
  · rw [if_pos h]
    exact lookup_map_update now id store h
  · rw [if_neg h]
    have hnone : store.lookup id = none := by
      cases hl : store.lookup id with
      | none => rfl
      | some v => rw [hl] at h; simp at h
    rw [lookup_append_of_none id _ store hnone]
    exact ⟨⟨now, now⟩, by simp [List.lookup], rfl⟩

/-- Eviction never lengthens the registry. -/
theorem evictOldest_length_le (store : Store) :
    (evictOldest store).length ≤ store.length := by
  unfold evictOldest
  cases argminSession store with
  | none => exact Nat.le_refl _
  | some m => exact List.length_eraseP_le _

/-- The expiry sweep never lengthens the registry. -/
theorem cleanup_length_le (cfg : Config) (now : Int) (store : Store) :
    (cleanup_old_sessions cfg now store).length ≤ store.length :=
  List.length_filter_le _ _

/-- The registry after `create_conversation` holds at most one more entry. -/
theorem create_conversation_length_le (now : Int) (outcome : CreateOutcome)
    (store : Store) :
    ((create_conversation now outcome store).2).length ≤ store.length + 1 := by
  cases outcome with
  | netError m => simp [create_conversation]
  | response status uuid =>
    by_cases h200 : (status == 200) = true
    · by_cases hmem : (store.lookup uuid).isSome = true
      · simp [create_conversation, h200, hmem]
      · simp [create_conversation, h200, hmem]
    · simp [create_conversation, h200]

/-- `argminSession` of a non-empty registry returns an entry of the registry
with the smallest `last_used` (first such in iteration order). -/
theorem argminSession_spec : ∀ (l : Store), l ≠ [] →
    ∃ p, argminSession l = some p ∧ p ∈ l ∧
      ∀ q ∈ l, p.2.last_used ≤ q.2.last_used := by
  intro l
  induction l with
  | nil => intro h; exact absurd rfl h
  | cons x xs ih =>
    intro _
    by_cases hxs : xs = []
    · subst hxs
      exact ⟨x, by simp [argminSession], by simp, by simp⟩
    · obtain ⟨q, hq, hqmem, hqmin⟩ := ih hxs
      simp only [argminSession, hq]
      by_cases hlt : q.2.last_used < x.2.last_used
      · refine ⟨q, by simp [hlt], by simp [hqmem], ?_⟩
        intro r hr
        rcases List.mem_cons.mp hr with h | h
        · subst h; exact le_of_lt hlt
        · exact hqmin r h
      · refine ⟨x, by simp [hlt], by simp, ?_⟩
        intro r hr
        rcases List.mem_cons.mp hr with h | h
        · subst h; exact le_refl _
        · exact le_trans (not_lt.mp hlt) (hqmin r h)

/-- `argmaxSession` of a non-empty registry returns an entry of the registry
with the largest `last_used` (first such in iteration order). -/
theorem argmaxSession_spec : ∀ (l : Store), l ≠ [] →
    ∃ p, argmaxSession l = some p ∧ p ∈ l ∧
      ∀ q ∈ l, q.2.last_used ≤ p.2.last_used := by
  intro l
  induction l with
  | nil => intro h; exact absurd rfl h
  | cons x xs ih =>
    intro _
    by_cases hxs : xs = []
    · subst hxs
      exact ⟨x, by simp [argmaxSession], by simp, by simp⟩
    · obtain ⟨q, hq, hqmem, hqmax⟩ := ih hxs
      simp only [argmaxSession, hq]
      by_cases hgt : q.2.last_used > x.2.last_used
      · refine ⟨q, by simp [hgt], by simp [hqmem], ?_⟩
        intro r hr
        rcases List.mem_cons.mp hr with h | h
        · subst h; exact le_of_lt hgt
        · exact hqmax r h
      · refine ⟨x, by simp [hgt], by simp, ?_⟩
        intro r hr
        rcases List.mem_cons.mp hr with h | h
        · subst h; exact le_refl _
        · exact le_trans (hqmax r h) (not_lt.mp hgt)

/-! ## Session store claims -/

/-- Claim C7: the expiry sweep keeps exactly the entries whose age, measured at the
sweep's observation time, does not exceed the configured TTL — every survivor
satisfies `now - last_used <= ttl` and every entry satisfying it survives, so
the sweep removes exactly the entries whose age exceeds the TTL. -/
theorem cleanup_ttl_exact (cfg : Config) (now : Int) (store : Store)
    (p : String × ConversationSession) :
    p ∈ cleanup_old_sessions cfg now store ↔
      p ∈ store ∧ now - p.2.last_used ≤ cfg.session_ttl := by
  simp [cleanup_old_sessions, List.mem_filter, not_lt]

/-- Claim C9: `send_message` touches the session registry (self-healing insert plus
`last_used` update) before the HTTP call is issued, so when the remote call
fails the returned registry is exactly the touched one — the conversation id
is present with `last_used = now` and the touch is not rolled back. -/
theorem touch_survives_remote_failure (now : Int)
    (conversation_id message : String) (outcome : SendOutcome) (store : Store)
    (hfail : outcome.isFailure = true) :
    (send_message now conversation_id message outcome store).2 =
      touchSession now conversation_id store ∧
    (∃ e, (send_message now conversation_id message outcome store).1 =
      .error e) ∧
    (∃ s, ((send_message now conversation_id message outcome store).2).lookup
        conversation_id = some s ∧ s.last_used = now) := by
  cases outcome with
  | netError m =>
    exact ⟨rfl, ⟨_, rfl⟩, lookup_touchSession now conversation_id store⟩
  | response status lines =>
    have h200 : (status == 200) = false := by
      simpa [SendOutcome.isFailure] using hfail
    refine ⟨?_, ?_, ?_⟩
    · simp [send_message, h200]
    · exact ⟨⟨"Неожиданная ошибка при отправке сообщения: " ++
        ("Ошибка отправки сообщения: " ++ toString status), none⟩,
        by simp [send_message, h200]⟩
    · have := lookup_touchSession now conversation_id store
      simpa [send_message, h200] using this

/-- Witness for C9: a failed send (HTTP 500) leaves the previously unknown
conversation id in the registry with its timestamp set to the touch time. -/
theorem touch_survives_remote_failure_witness :
    (send_message 7 "B" "hi" (.response 500 []) [("A", ⟨0, 0⟩)]).2 =
      touchSession 7 "B" [("A", ⟨0, 0⟩)] ∧
    (∃ e, (send_message 7 "B" "hi" (.response 500 []) [("A", ⟨0, 0⟩)]).1 =
      .error e) ∧
    (∃ s, ((send_message 7 "B" "hi" (.response 500 []) [("A", ⟨0, 0⟩)]).2).lookup
        "B" = some s ∧ s.last_used = 7) :=
  touch_survives_remote_failure 7 "B" "hi" (.response 500 []) [("A", ⟨0, 0⟩)]
    (by decide)

/-- A configuration with `max_active_sessions = 1` (all other values the
config.py defaults), used by the concrete store scenarios. -/
def cfgMax1 : Config :=
  { onec_ai_token := "t", base_url := "https://code.1c.ai", timeout := 30,
    ui_language := "russian", programming_language := "", script_language := "",
    max_active_sessions := 1, session_ttl := 3600 }

/-- Claim C1 counterexample: with the maximum set to 1 and one fresh session `"A"`
registered, the touch performed by `send_message` for the unknown id `"B"`
and the registration performed by `get_or_create_session` with
`forceNew = true` each insert without any capacity check, leaving two entries
in the store — strictly more than the configured maximum — immediately after
the operation returns. -/
theorem population_bound_violated :
    cfgMax1.max_active_sessions = 1 ∧
    (((send_message 0 "B" "hi" (.response 200 [])
        [("A", ⟨0, 0⟩)]).2).length : Int) > cfgMax1.max_active_sessions ∧
    (((get_or_create_session cfgMax1 0 (.response 200 "B") true
        [("A", ⟨0, 0⟩)]).2.1).length : Int) > cfgMax1.max_active_sessions := by
  refine ⟨rfl, by decide, by decide⟩

/-- Claim C1 (amended): the population bound is preserved only by
`get_or_create_session` with `forceNew = false` — if the store population is
at most the configured maximum (itself at least 1) before such a call, it is
at most the maximum after it returns.  Operations that register a new session
(`get_or_create_session` taking the create path, and the touch performed by
`send_message` or the insert of `create_conversation` for an unknown id)
perform no capacity check and can push the population above the maximum. -/
theorem plain_acquire_preserves_population_bound (cfg : Config) (now : Int)
    (outcome : CreateOutcome) (store : Store)
    (hbound : (store.length : Int) ≤ cfg.max_active_sessions)
    (hpos : 1 ≤ cfg.max_active_sessions) :
    ((((get_or_create_session cfg now outcome false store).2.1).length : Int) ≤
      cfg.max_active_sessions) := by
  have hs1 : (cleanup_old_sessions cfg now store).length ≤ store.length :=
    cleanup_length_le cfg now store
  unfold get_or_create_session
  simp only [Bool.false_or]
  by_cases hemp : (cleanup_old_sessions cfg now store).isEmpty = true
  · rw [if_pos hemp]
    have hnil : cleanup_old_sessions cfg now store = [] := by
      simpa using hemp
    have hcl : ((create_conversation now outcome
        (cleanup_old_sessions cfg now store)).2).length ≤ 1 := by
      have h1 := create_conversation_length_le now outcome
        (cleanup_old_sessions cfg now store)
      rw [hnil] at h1 ⊢
      simpa using h1
    rcases hc : create_conversation now outcome
        (cleanup_old_sessions cfg now store) with ⟨r, s2⟩
    have hs2 : s2.length ≤ 1 := by rw [hc] at hcl; exact hcl
    cases r with
    | ok cid => simp only [hc]; omega
    | error e => simp only [hc]; omega
  · rw [if_neg hemp]
    have hlen2 : (if (cleanup_old_sessions cfg now store).length ≥
          cfg.max_active_sessions
        then evictOldest (cleanup_old_sessions cfg now store)
        else cleanup_old_sessions cfg now store).length ≤ store.length := by
      split
      · exact le_trans (evictOldest_length_le _) hs1
      · exact hs1
    rcases hm : argmaxSession (if ((cleanup_old_sessions cfg now
          store).length : Int) ≥ cfg.max_active_sessions
        then evictOldest (cleanup_old_sessions cfg now store)
        else cleanup_old_sessions cfg now store) with _ | m
    · simp only [hm]
      omega
    · simp only [hm]
      omega

/-- Witness for C1 (amended): a plain acquire at maximum population (one
fresh session, maximum 1) returns with the population still within bound. -/
theorem plain_acquire_preserves_population_bound_witness :
    ((((get_or_create_session cfgMax1 0 (.response 200 "C") false
        [("A", ⟨0, 0⟩)]).2.1).length : Int) ≤ cfgMax1.max_active_sessions) :=
  plain_acquire_preserves_population_bound cfgMax1 0 (.response 200 "C")
    [("A", ⟨0, 0⟩)] (by decide) (by decide)

/-- A configuration with `max_active_sessions = 2`, for the two-session
recency scenario. -/
def cfgAB : Config :=
  { onec_ai_token := "t", base_url := "https://code.1c.ai", timeout := 30,
    ui_language := "russian", programming_language := "", script_language := "",
    max_active_sessions := 2, session_ttl := 3600 }

/-- The same configuration with `max_active_sessions = 3` (population under
the maximum in the two-session scenario). -/
def cfgAB3 : Config :=
  { cfgAB with max_active_sessions := 3 }

/-- Sessions A (last used 10:00, i.e. second 36000) and B (last used 10:05,
i.e. second 36300). -/
def storeAB : Store := [("A", ⟨36000, 36000⟩), ("B", ⟨36300, 36300⟩)]

/-- Claim C6 counterexample: with the maximum set to 1 and a single (fresh) entry —
a store state with one entry after the expiry sweep, at maximum population —
the call evicts that entry and the subsequent `max()` scan over the now-empty
registry raises `ValueError` instead of returning the id of the most recently
used remaining entry, so the claim's universally quantified statement fails. -/
theorem acquire_at_max_singleton_raises :
    get_or_create_session cfgMax1 0 (.response 200 "C") false
      [("A", ⟨0, 0⟩)] = (.error .valueError, [], 0) := by rfl

/-- Claim C6 (amended): for every store state non-empty after the expiry sweep,
`get_or_create_session` with `forceNew = false` behaves as follows.  At or
above the configured maximum, provided at least two entries are present (so
that an entry remains after eviction), it first evicts the entry with the
smallest `last_used` (ties to the first in insertion order) and then returns
the id of the entry with the largest `last_used` among the remaining entries;
with exactly one entry at maximum population it instead raises (`max()` over
an empty registry).  Under the maximum it evicts nothing and returns the id of
the entry with the largest `last_used`.  Concretely, with sessions
A (last_used 10:00) and B (last_used 10:05) it evicts A and returns B's id at
maximum population 2, and simply returns B's id under maximum 3. -/
theorem acquire_recency_selection (cfg : Config) (now : Int)
    (outcome : CreateOutcome) (store s1 : Store)
    (hs : cleanup_old_sessions cfg now store = s1) (hne : s1 ≠ []) :
    ((cfg.max_active_sessions ≤ (s1.length : Int) → 2 ≤ s1.length →
      ∃ m r, argminSession s1 = some m ∧ m ∈ s1 ∧
        (∀ q ∈ s1, m.2.last_used ≤ q.2.last_used) ∧
        argmaxSession (s1.eraseP fun p => p.1 == m.1) = some r ∧
        r ∈ s1.eraseP (fun p => p.1 == m.1) ∧
        (∀ q ∈ s1.eraseP (fun p => p.1 == m.1),
          q.2.last_used ≤ r.2.last_used) ∧
        get_or_create_session cfg now outcome false store =
          (.ok r.1, s1.eraseP (fun p => p.1 == m.1), 0)) ∧
     ((s1.length : Int) < cfg.max_active_sessions →
      ∃ r, argmaxSession s1 = some r ∧ r ∈ s1 ∧
        (∀ q ∈ s1, q.2.last_used ≤ r.2.last_used) ∧
        get_or_create_session cfg now outcome false store =
          (.ok r.1, s1, 0))) ∧
    get_or_create_session cfgAB 36300 outcome false storeAB =
      (.ok "B", [("B", ⟨36300, 36300⟩)], 0) ∧
    get_or_create_session cfgAB3 36300 outcome false storeAB =
      (.ok "B", storeAB, 0) := by
  have hempF : s1.isEmpty = false := by
    cases s1 with
    | nil => exact absurd rfl hne
    | cons a l => rfl
  refine ⟨⟨fun hmax h2 => ?_, fun hlt => ?_⟩, rfl, rfl⟩
  · obtain ⟨m, hm, hmmem, hmmin⟩ := argminSession_spec s1 hne
    have hms : evictOldest s1 = s1.eraseP fun p => p.1 == m.1 := by
      rw [evictOldest, hm]
    have hlen : (s1.eraseP fun p => p.1 == m.1).length = s1.length - 1 :=
      List.length_eraseP_of_mem hmmem (by simp)
    have hne2 : (s1.eraseP fun p => p.1 == m.1) ≠ [] := by
      intro hnil
      rw [hnil] at hlen
      simp at hlen
      omega
    obtain ⟨r, hr, hrmem, hrmax⟩ := argmaxSession_spec _ hne2
    refine ⟨m, r, hm, hmmem, hmmin, hr, hrmem, hrmax, ?_⟩
    unfold get_or_create_session
    rw [hs]
    simp only [Bool.false_or, hempF, if_neg (by simp : ¬(false = true))]
    rw [if_pos hmax, hms, hr]
  · obtain ⟨r, hr, hrmem, hrmax⟩ := argmaxSession_spec s1 hne
    refine ⟨r, hr, hrmem, hrmax, ?_⟩
    unfold get_or_create_session
    rw [hs]
    simp only [Bool.false_or, hempF, if_neg (by simp : ¬(false = true))]
    rw [if_neg (not_le.mpr hlt), hr]

/-- Witness for C6 (amended): the A/B scenario at maximum population 2 —
A (the smallest `last_used`) is evicted and B's id (the largest `last_used`
among the remaining entries) is returned. -/
theorem acquire_recency_selection_witness :
    ∃ m r, argminSession storeAB = some m ∧ m ∈ storeAB ∧
      (∀ q ∈ storeAB, m.2.last_used ≤ q.2.last_used) ∧
      argmaxSession (storeAB.eraseP fun p => p.1 == m.1) = some r ∧
      r ∈ storeAB.eraseP (fun p => p.1 == m.1) ∧
      (∀ q ∈ storeAB.eraseP (fun p => p.1 == m.1),
        q.2.last_used ≤ r.2.last_used) ∧
      get_or_create_session cfgAB 36300 (.response 200 "C") false storeAB =
        (.ok r.1, storeAB.eraseP (fun p => p.1 == m.1), 0) :=
  ((acquire_recency_selection cfgAB 36300 (.response 200 "C") storeAB storeAB
      rfl (by decide)).1).1 (by decide) (by decide)

/-! ## Remote-error propagation and configuration claims -/

/-- Claim C4 exhibit (code bug): on a non-success status (HTTP 404) the `ApiError`
that `create_conversation` deliberately raises with the status code attached
is caught by the same function's own trailing `except Exception` clause and
re-raised wrapped: the error that surfaces carries a prefixed message and no
status code — not the original message together with status 404 that the
code's non-200 branch constructs.  `send_message` loses its status the same
way.  (No retry and no suppression occur: the error is returned, once.) -/
theorem remote_error_rewrapped_losing_status :
    create_conversation 0 (.response 404 "u") [] =
      (.error ⟨"Неожиданная ошибка при создании дискуссии: " ++
        "Ошибка создания дискуссии: 404", none⟩, []) ∧
    (⟨"Неожиданная ошибка при создании дискуссии: " ++
        "Ошибка создания дискуссии: 404", none⟩ : ApiError) ≠
      ⟨"Ошибка создания дискуссии: 404", some 404⟩ ∧
    (send_message 0 "A" "hi" (.response 404 []) []).1 =
      .error ⟨"Неожиданная ошибка при отправке сообщения: " ++
        "Ошибка отправки сообщения: 404", none⟩ := by
  refine ⟨by rfl, by decide, by rfl⟩

/-- The raw environment for C5: a token is present, and both session settings
are set to zero. -/
def zeroRaw : RawSettings :=
  { onec_ai_token := some "token", base_url := none, timeout := none,
    ui_language := none, programming_language := none, script_language := none,
    max_active_sessions := some 0, session_ttl := some 0 }

/-- Claim C5 counterexample: loading the configuration with a TTL of zero and a
maximum session count of zero succeeds — the pydantic fields carry no
positivity constraint — and stores the zeros unchanged, instead of failing
fast as the claim requires. -/
theorem zero_config_accepted :
    get_config zeroRaw = .ok
      { onec_ai_token := "token", base_url := "https://code.1c.ai",
        timeout := 30, ui_language := "russian", programming_language := "",
        script_language := "", max_active_sessions := 0,
        session_ttl := 0 } := by rfl

/-- An environment supplying a token and explicit session settings, every
other variable unset. -/
def rawWith (tok : String) (m t : Int) : RawSettings :=
  { onec_ai_token := some tok, base_url := none, timeout := none,
    ui_language := none, programming_language := none, script_language := none,
    max_active_sessions := some m, session_ttl := some t }

/-- Claim C5 (amended): configuration loading performs no validation of the session
settings — any non-positive `max_active_sessions` or `session_ttl` value is
accepted and stored exactly as given (neither rejected nor clamped); only a
missing `onec_ai_token` makes construction fail. -/
theorem nonpositive_config_values_accepted (tok : String) (m t : Int)
    (hm : m ≤ 0) (ht : t ≤ 0) :
    (∃ cfg, get_config (rawWith tok m t) = .ok cfg ∧
      cfg.max_active_sessions = m ∧ cfg.session_ttl = t) ∧
    (∀ r : RawSettings, r.onec_ai_token = none →
      get_config r =
        .error "1 validation error for Config: onec_ai_token field required") := by
  refine ⟨⟨_, rfl, rfl, rfl⟩, fun r hr => ?_⟩
  unfold get_config
  rw [hr]

/-- Witness for C5 (amended): the zero/zero settings load successfully with
the zeros unclamped, and the token-less environment fails. -/
theorem nonpositive_config_values_accepted_witness :
    (∃ cfg, get_config (rawWith "token" 0 0) = .ok cfg ∧
      cfg.max_active_sessions = 0 ∧ cfg.session_ttl = 0) ∧
    (∀ r : RawSettings, r.onec_ai_token = none →
      get_config r =
        .error "1 validation error for Config: onec_ai_token field required") :=
  nonpositive_config_values_accepted "token" 0 0 (by decide) (by decide)

/-- Claim C8: a blank (empty or whitespace-only) question, syntax element, or code —
`not text.strip()` — is rejected by the corresponding tool handler with its
error message before any remote call (the remote-call count of the returned
triple is zero) and the session store is returned completely unchanged: no
session is created and no timestamp is touched. -/
theorem blank_input_rejected (cfg : Config) (now : Int)
    (createOut : CreateOutcome) (sendOut : SendOutcome)
    (q pl el ctx code ct : String) (cns : Bool) (store : Store) :
    (pyStrip q = "" →
      handle_ask_1c_ai cfg now createOut sendOut q pl cns store =
        (.rejected "Ошибка: Вопрос не может быть пустым", store, 0)) ∧
    (pyStrip el = "" →
      handle_explain_syntax_element cfg now createOut sendOut el ctx store =
        (.rejected "Ошибка: Элемент синтаксиса не может быть пустым",
         store, 0)) ∧
    (pyStrip code = "" →
      handle_check_code cfg now createOut sendOut code ct store =
        (.rejected "Ошибка: Код для проверки не может быть пустым",
         store, 0)) := by
  refine ⟨fun h => ?_, fun h => ?_, fun h => ?_⟩
  · simp [handle_ask_1c_ai, h]
  · simp [handle_explain_syntax_element, h]
  · simp [handle_check_code, h]

/-- Witness for C8: whitespace-only inputs to the three tools are rejected
with the store untouched and zero remote calls. -/
theorem blank_input_rejected_witness :
    (handle_ask_1c_ai cfgMax1 0 (.response 200 "C") (.response 200 [])
        "   " "" false [("A", ⟨0, 0⟩)] =
      (.rejected "Ошибка: Вопрос не может быть пустым",
       [("A", ⟨0, 0⟩)], 0)) ∧
    (handle_explain_syntax_element cfgMax1 0 (.response 200 "C") (.response 200 [])
        " " "ctx" [("A", ⟨0, 0⟩)] =
      (.rejected "Ошибка: Элемент синтаксиса не может быть пустым",
       [("A", ⟨0, 0⟩)], 0)) ∧
    (handle_check_code cfgMax1 0 (.response 200 "C") (.response 200 [])
        "\t\n" "logic" [("A", ⟨0, 0⟩)] =
      (.rejected "Ошибка: Код для проверки не может быть пустым",
       [("A", ⟨0, 0⟩)], 0)) :=
  ⟨(blank_input_rejected cfgMax1 0 (.response 200 "C") (.response 200 [])
      "   " "" " " "ctx" "\t\n" "logic" false [("A", ⟨0, 0⟩)]).1 (by decide),
   (blank_input_rejected cfgMax1 0 (.response 200 "C") (.response 200 [])
      "   " "" " " "ctx" "\t\n" "logic" false [("A", ⟨0, 0⟩)]).2.1 (by decide),
   (blank_input_rejected cfgMax1 0 (.response 200 "C") (.response 200 [])
      "   " "" " " "ctx" "\t\n" "logic" false [("A", ⟨0, 0⟩)]).2.2 (by decide)⟩

end OneC
